import Mathlib

/-!
Shallow embedding of `Sources/TSCclibc/process.c` (and its header
`Sources/TSCclibc/include/process.h`) from swift-tools-support-core.

The C file has three functions:
  - `SPM_posix_spawn_file_actions_addchdir_np` : a wrapper that calls the
    native glibc facility when `__GLIBC_PREREQ(2, 29)` holds and returns
    `ENOSYS` otherwise;
  - `SPM_posix_spawn_file_actions_addchdir_np_supported` : the matching
    capability probe;
  - `SPM_fork_exec_chdir` : fork, then in the parent waitpid and return the
    raw status, and in the child chdir, rewire pipes with dup2/close, and
    execve.

The embedding models the file-descriptor table of a process as a map from
descriptor numbers to the open file objects they denote, `dup2` and `close`
as updates of that map, and one call of `SPM_fork_exec_chdir` as a function
of an oracle (`World`) that fixes the outcome of the nondeterministic
system calls: whether fork succeeds and with which child pid, whether
chdir succeeds, whether execve succeeds, and which raw wait status the
executed program eventually produces. The child branch additionally
records the ordered trace of system calls it performs, so that ordering
claims can be stated.
-/

namespace TSCclibc

/-- An open file object a descriptor can denote: the three streams of the
parent at entry, or one end of one of the three caller-created pipes.
Pipe identifiers: 0 = the stdin pipe, 1 = the stdout pipe, 2 = the stderr
pipe. -/
inductive FileObj where
  | stdIn
  | stdOut
  | stdErr
  | pRead (pipe : Nat)
  | pWrite (pipe : Nat)
deriving DecidableEq, Repr

/-- A file-descriptor table: which open file object each descriptor number
denotes, `none` meaning the descriptor is closed. -/
def FdTable := Nat → Option FileObj

/-- Semantics of dup2(oldfd, newfd): when `oldfd` is open, make `newfd` denote the
same open file object (implicitly closing what `newfd` denoted); when
`oldfd` is closed the call fails with `EBADF` and changes nothing. -/
def dup2 (t : FdTable) (oldfd newfd : Nat) : FdTable :=
  match t oldfd with
  | none => t
  | some o => fun fd => if fd = newfd then some o else t fd

/-- Semantics of close(fd): the descriptor no longer denotes anything. -/
def closefd (t : FdTable) (fd : Nat) : FdTable :=
  fun x => if x = fd then none else t x

/-- One observable system call of the launcher, in program order. -/
inductive Ev where
  | chdirCall (path : String) (ok : Bool)
  | dup2Call (oldfd newfd : Nat)
  | closeCall (fd : Nat)
  | execCall (cmd : String)
  | perrorCall (msg : String)
  | exitCall (status : Nat)
  | waitpidCall (pid : Nat)
deriving DecidableEq, Repr

/-- Events that rewire the descriptor table: `dup2` and `close`. -/
def Ev.isRewire : Ev → Bool
  | .dup2Call _ _ => true
  | .closeCall _ => true
  | _ => false

/-- The image-replacement event. -/
def Ev.isExecCall : Ev → Bool
  | .execCall _ => true
  | _ => false

/-- How the child branch terminates: `_exit(status)`, successful
image-replacement by `cmd`, or falling off the branch back into code
shared with the parent (which the C code never does). -/
inductive ChildOutcome where
  | exited (status : Nat)
  | execed (cmd : String)
  | fellThrough
deriving DecidableEq, Repr

/-- The arguments of `SPM_fork_exec_chdir`: target directory, executable,
argv, envp, the three pipe pairs as (read end, write end) descriptor
numbers, and the two redirection flags (`redirect_out`, `redirect_err`). -/
structure LaunchArgs where
  cwd : String
  cmd : String
  argv : List String
  envp : List String
  inPipe : Nat × Nat
  outPipe : Nat × Nat
  errPipe : Nat × Nat
  redirectOut : Bool
  redirectErr : Bool

/-- Oracle fixing the outcomes of the nondeterministic system calls of one
launch: `forkPid = none` means `fork()` returned a negative value, and
`forkPid = some pid` means it succeeded, creating a child whose pid is
`pid`; `chdirOk` and `execOk` say whether `chdir(cwd)` and
`execve(cmd, argv, envp)` succeed in the child; `execedWaitStatus` is the
raw wait status the parent eventually observes when the exec succeeds and
the target program runs to termination. -/
structure World where
  forkPid : Option Nat
  chdirOk : Bool
  execOk : Bool
  execedWaitStatus : Nat

/-- Value of EXIT_FAILURE in stdlib.h. -/
def EXIT_FAILURE : Nat := 1

/-- The result of running the child branch: the trace of system calls it
performed, its descriptor table at the end of the branch (the table the
executed program inherits when execve succeeds), and how it terminated. -/
structure ChildRun where
  events : List Ev
  table : FdTable
  outcome : ChildOutcome

/-- The tail of the child branch, lines 88-92 of process.c: call
`execve(cmd, argv, envp)`; if it returns it has failed, so `perror(cmd)`
and `_exit(EXIT_FAILURE)`. -/
def execTail (a : LaunchArgs) (w : World) (evs : List Ev) (t : FdTable) : ChildRun :=
  if w.execOk then
    { events := evs ++ [Ev.execCall a.cmd]
      table := t
      outcome := ChildOutcome.execed a.cmd }
  else
    { events := evs ++ [Ev.execCall a.cmd, Ev.perrorCall a.cmd, Ev.exitCall EXIT_FAILURE]
      table := t
      outcome := ChildOutcome.exited EXIT_FAILURE }

/-- The child branch of `SPM_fork_exec_chdir`, lines 52-92 of process.c,
as a function of the inherited descriptor table `t`:
`if (chdir(cwd)) _exit(EXIT_FAILURE);` then
`dup2(in_pipe[0], 0); close(in_pipe[0]); close(in_pipe[1]);` then,
when `redirect_out`, `dup2(out_pipe[1], 1); close(out_pipe[0]);
close(out_pipe[1]);` followed by `dup2(1, 2)` when `redirect_err` and by
`dup2(err_pipe[1], 2); close(err_pipe[0]); close(err_pipe[1]);` otherwise;
when not `redirect_out`, `dup2(1, 1); dup2(2, 2);`; finally the execve
tail. -/
def childBranch (a : LaunchArgs) (w : World) (t : FdTable) : ChildRun :=
  if w.chdirOk then
    let t1 := dup2 t a.inPipe.1 0
    let t2 := closefd t1 a.inPipe.1
    let t3 := closefd t2 a.inPipe.2
    let evIn := [Ev.chdirCall a.cwd true, Ev.dup2Call a.inPipe.1 0,
                 Ev.closeCall a.inPipe.1, Ev.closeCall a.inPipe.2]
    if a.redirectOut then
      let t4 := dup2 t3 a.outPipe.2 1
      let t5 := closefd t4 a.outPipe.1
      let t6 := closefd t5 a.outPipe.2
      let evOut := evIn ++ [Ev.dup2Call a.outPipe.2 1,
                            Ev.closeCall a.outPipe.1, Ev.closeCall a.outPipe.2]
      if a.redirectErr then
        execTail a w (evOut ++ [Ev.dup2Call 1 2]) (dup2 t6 1 2)
      else
        let t7 := dup2 t6 a.errPipe.2 2
        let t8 := closefd t7 a.errPipe.1
        let t9 := closefd t8 a.errPipe.2
        execTail a w
          (evOut ++ [Ev.dup2Call a.errPipe.2 2,
                     Ev.closeCall a.errPipe.1, Ev.closeCall a.errPipe.2]) t9
    else
      execTail a w (evIn ++ [Ev.dup2Call 1 1, Ev.dup2Call 2 2])
        (dup2 (dup2 t3 1 1) 2 2)
  else
    { events := [Ev.chdirCall a.cwd false, Ev.exitCall EXIT_FAILURE]
      table := t
      outcome := ChildOutcome.exited EXIT_FAILURE }

/-- The raw wait status `waitpid` stores for the parent: a child that
called `_exit(s)` yields the platform encoding `s * 256` (exit code in
the high byte, no signal bits), and a child whose execve succeeded yields
whatever raw status the executed program eventually produces. -/
def rawWaitStatus (w : World) : ChildOutcome → Nat
  | ChildOutcome.exited s => 256 * s
  | ChildOutcome.execed _ => w.execedWaitStatus
  | ChildOutcome.fellThrough => 0

/-- The caller-visible state of the parent process: its descriptor table,
its working directory, and the value of the caller-supplied `pid_t`
out-parameter location. -/
structure ParentState where
  table : FdTable
  cwd : String
  pidOut : Int

/-- Everything observable about one call of `SPM_fork_exec_chdir`:
whether the call returned to the caller at all (`false` means the calling
process itself was terminated by `_exit`), the int value returned (or the
exit status of the calling process when it did not return), the final
caller-visible parent state, the trace of system calls performed by the
parent branch after the fork, and the spawned child run when a child was
created (`childOutcome = none` means no child exists). -/
structure LaunchResult where
  returnedToCaller : Bool
  status : Nat
  finalParent : ParentState
  parentTrace : List Ev
  childTrace : List Ev
  childTable : FdTable
  childOutcome : Option ChildOutcome

/-- Function SPM_fork_exec_chdir, lines 39-93 of process.c, seen from the calling
process. `*pid = fork();` writes the fork return value through the
out-parameter. When fork fails (`*pid < 0`): `perror("fork() failed");
_exit(EXIT_FAILURE);` — the calling process terminates. When fork succeeds
(`*pid > 0` in the parent): the parent performs
`waitpid(*pid, &status, 0); return status;`, touching nothing else, while
the child (fork returned 0 there) runs the child branch on its copy of the
parent table. -/
def SPM_fork_exec_chdir (a : LaunchArgs) (w : World) (p : ParentState) : LaunchResult :=
  match w.forkPid with
  | none =>
      { returnedToCaller := false
        status := EXIT_FAILURE
        finalParent := { p with pidOut := -1 }
        parentTrace := [Ev.perrorCall "fork() failed", Ev.exitCall EXIT_FAILURE]
        childTrace := []
        childTable := p.table
        childOutcome := none }
  | some pid =>
      let c := childBranch a w p.table
      { returnedToCaller := true
        status := rawWaitStatus w c.outcome
        finalParent := { p with pidOut := Int.ofNat pid }
        parentTrace := [Ev.waitpidCall pid]
        childTrace := c.events
        childTable := c.table
        childOutcome := some c.outcome }

/-- The six descriptor numbers of the three pipe pairs. -/
def pipeFds (a : LaunchArgs) : List Nat :=
  [a.inPipe.1, a.inPipe.2, a.outPipe.1, a.outPipe.2, a.errPipe.1, a.errPipe.2]

/-- Well-formedness of the supplied pipes in the table the child inherits:
the six pipe descriptors are pairwise distinct and above the three
standard slots, the standard slots denote the parent streams, and each
pipe descriptor denotes the matching end of its pipe object. This is the
invariant of §3 of the spec: all three pipe pairs are valid, open,
caller-created channels. -/
def pipesWF (a : LaunchArgs) (t : FdTable) : Prop :=
  (pipeFds a).Nodup ∧ (∀ fd ∈ pipeFds a, 2 < fd) ∧
  t 0 = some FileObj.stdIn ∧ t 1 = some FileObj.stdOut ∧ t 2 = some FileObj.stdErr ∧
  t a.inPipe.1 = some (FileObj.pRead 0) ∧ t a.inPipe.2 = some (FileObj.pWrite 0) ∧
  t a.outPipe.1 = some (FileObj.pRead 1) ∧ t a.outPipe.2 = some (FileObj.pWrite 1) ∧
  t a.errPipe.1 = some (FileObj.pRead 2) ∧ t a.errPipe.2 = some (FileObj.pWrite 2)

instance (a : LaunchArgs) (t : FdTable) : Decidable (pipesWF a t) := by
  unfold pipesWF
  infer_instance

/-- Value of ENOSYS in errno.h on Linux. -/
def ENOSYS : Nat := 38

/-- Identity and version of the C library the translation unit is built
against: whether it is glibc, and when so its `__GLIBC__` and
`__GLIBC_MINOR__` values. -/
structure CLibrary where
  isGlibc : Bool
  glibcMajor : Nat
  glibcMinor : Nat

/-- Meaning of the macro __GLIBC_PREREQ(maj, minv):
`((__GLIBC__ << 16) + __GLIBC_MINOR__) >= ((maj << 16) + (minv))`. -/
def glibcPrereq (c : CLibrary) (maj minv : Nat) : Bool :=
  decide (c.glibcMajor * 65536 + c.glibcMinor ≥ maj * 65536 + minv)

/-- Lines 27-37 of process.c: the capability probe returns true exactly
when building against glibc with `__GLIBC_PREREQ(2, 29)`. -/
def SPM_posix_spawn_file_actions_addchdir_np_supported (c : CLibrary) : Bool :=
  if c.isGlibc then
    if glibcPrereq c 2 29 then true else false
  else false

/-- The observable outcome of the addchdir wrapper: the int it returns and
whether the native facility was invoked (that is, whether a chdir file
action was recorded in the action list at all). -/
structure AddchdirOutcome where
  ret : Nat
  nativeCalled : Bool
deriving DecidableEq, Repr

/-- Lines 15-25 of process.c: when building against glibc with
`__GLIBC_PREREQ(2, 29)`, forward to the native
`posix_spawn_file_actions_addchdir_np` (whose return value is the oracle
`nativeRet`); otherwise return `ENOSYS` without touching the action
list. -/
def SPM_posix_spawn_file_actions_addchdir_np (c : CLibrary) (nativeRet : Nat) : AddchdirOutcome :=
  if c.isGlibc then
    if glibcPrereq c 2 29 then { ret := nativeRet, nativeCalled := true }
    else { ret := ENOSYS, nativeCalled := false }
  else { ret := ENOSYS, nativeCalled := false }

/-! Concrete instances used to witness the theorems below: the scenario of
§8 of the spec — target directory `/tmp/work`, executable `/bin/echo`,
pipe pairs (3,4), (5,6), (7,8) — over the standard initial table. -/

/-- A concrete inherited table: slots 0-2 denote the parent streams,
descriptors 3-8 denote the three pipe pairs, everything else closed. -/
def table0 : FdTable := fun fd =>
  if fd = 0 then some FileObj.stdIn
  else if fd = 1 then some FileObj.stdOut
  else if fd = 2 then some FileObj.stdErr
  else if fd = 3 then some (FileObj.pRead 0)
  else if fd = 4 then some (FileObj.pWrite 0)
  else if fd = 5 then some (FileObj.pRead 1)
  else if fd = 6 then some (FileObj.pWrite 1)
  else if fd = 7 then some (FileObj.pRead 2)
  else if fd = 8 then some (FileObj.pWrite 2)
  else none

/-- Concrete launch arguments with both redirection flags set. -/
def argsMerge : LaunchArgs :=
  { cwd := "/tmp/work", cmd := "/bin/echo", argv := ["echo", "hello"], envp := []
    inPipe := (3, 4), outPipe := (5, 6), errPipe := (7, 8)
    redirectOut := true, redirectErr := true }

/-- Concrete launch arguments with redirection but no merge. -/
def argsSplit : LaunchArgs :=
  { argsMerge with redirectErr := false }

/-- Concrete launch arguments with no redirection. -/
def argsNoRedir : LaunchArgs :=
  { argsMerge with redirectOut := false, redirectErr := false }

/-- A concrete initial parent state. -/
def parent0 : ParentState :=
  { table := table0, cwd := "/root", pidOut := 0 }

/-- Oracle: everything succeeds, child pid 42, executed program exits
cleanly. -/
def worldOk : World :=
  { forkPid := some 42, chdirOk := true, execOk := true, execedWaitStatus := 0 }

/-- Oracle: fork fails. -/
def worldForkFail : World :=
  { worldOk with forkPid := none }

/-- Oracle: the chdir in the child fails (directory does not exist). -/
def worldChdirFail : World :=
  { worldOk with chdirOk := false }

/-- Oracle: the execve in the child fails (executable not found). -/
def worldExecFail : World :=
  { worldOk with execOk := false }

/-- Projection fact: the execve tail never changes the descriptor
table. -/
theorem execTail_table (a : LaunchArgs) (w : World) (evs : List Ev) (t : FdTable) :
    (execTail a w evs t).table = t := by
  unfold execTail; split <;> rfl

/-- The descriptors of a well-formed pipe pair differ from the three
standard slots. -/
theorem gt2_ne {x : Nat} (h : 2 < x) :
    x ≠ 0 ∧ x ≠ 1 ∧ x ≠ 2 ∧ 0 ≠ x ∧ 1 ≠ x ∧ 2 ≠ x := by omega

set_option maxHeartbeats 2000000 in
/-- Characterization of the child descriptor table for this redirection
configuration, at the standard slots, the six pipe descriptors, and every
other descriptor. -/
theorem childBranch_merge_table (a : LaunchArgs) (w : World) (t : FdTable)
    (hwf : pipesWF a t) (hc : w.chdirOk = true)
    (hro : a.redirectOut = true) (hre : a.redirectErr = true) :
    ((childBranch a w t).table 0 = some (FileObj.pRead 0) ∧
    (childBranch a w t).table 1 = some (FileObj.pWrite 1) ∧
    (childBranch a w t).table 2 = some (FileObj.pWrite 1) ∧
    (childBranch a w t).table a.inPipe.1 = none ∧
    (childBranch a w t).table a.inPipe.2 = none ∧
    (childBranch a w t).table a.outPipe.1 = none ∧
    (childBranch a w t).table a.outPipe.2 = none ∧
    (childBranch a w t).table a.errPipe.1 = some (FileObj.pRead 2) ∧
    (childBranch a w t).table a.errPipe.2 = some (FileObj.pWrite 2)) ∧
    (∀ fd, fd ≠ 0 → fd ≠ 1 → fd ≠ 2 → fd ∉ pipeFds a → (childBranch a w t).table fd = t fd) := by
  obtain ⟨hnd, hgt, h0, h1, h2, hi1, hi2, ho1, ho2, he1, he2⟩ := hwf
  simp only [pipeFds, List.nodup_cons, List.mem_cons, List.mem_singleton, List.not_mem_nil,
    or_false, not_or, List.nodup_nil, and_true] at hnd
  obtain ⟨⟨d1, d2, d3, d4, d5⟩, ⟨d6, d7, d8, d9⟩, ⟨d10, d11, d12⟩, ⟨d13, d14⟩, d15, -⟩ := hnd
  have gi1 : 2 < a.inPipe.1 := hgt _ (by simp [pipeFds])
  have gi2 : 2 < a.inPipe.2 := hgt _ (by simp [pipeFds])
  have go1 : 2 < a.outPipe.1 := hgt _ (by simp [pipeFds])
  have go2 : 2 < a.outPipe.2 := hgt _ (by simp [pipeFds])
  have ge1 : 2 < a.errPipe.1 := hgt _ (by simp [pipeFds])
  have ge2 : 2 < a.errPipe.2 := hgt _ (by simp [pipeFds])
  obtain ⟨b_i1_0, b_i1_1, b_i1_2, c_0_i1, c_1_i1, c_2_i1⟩ := gt2_ne gi1
  obtain ⟨b_i2_0, b_i2_1, b_i2_2, c_0_i2, c_1_i2, c_2_i2⟩ := gt2_ne gi2
  obtain ⟨b_o1_0, b_o1_1, b_o1_2, c_0_o1, c_1_o1, c_2_o1⟩ := gt2_ne go1
  obtain ⟨b_o2_0, b_o2_1, b_o2_2, c_0_o2, c_1_o2, c_2_o2⟩ := gt2_ne go2
  obtain ⟨b_e1_0, b_e1_1, b_e1_2, c_0_e1, c_1_e1, c_2_e1⟩ := gt2_ne ge1
  obtain ⟨b_e2_0, b_e2_1, b_e2_2, c_0_e2, c_1_e2, c_2_e2⟩ := gt2_ne ge2
  have q_e1_i1 : a.errPipe.1 ≠ a.inPipe.1 := Ne.symm d4
  have q_e1_i2 : a.errPipe.1 ≠ a.inPipe.2 := Ne.symm d8
  have q_e1_o1 : a.errPipe.1 ≠ a.outPipe.1 := Ne.symm d11
  have q_e1_o2 : a.errPipe.1 ≠ a.outPipe.2 := Ne.symm d13
  have q_e2_i1 : a.errPipe.2 ≠ a.inPipe.1 := Ne.symm d5
  have q_e2_i2 : a.errPipe.2 ≠ a.inPipe.2 := Ne.symm d9
  have q_e2_o1 : a.errPipe.2 ≠ a.outPipe.1 := Ne.symm d12
  have q_e2_o2 : a.errPipe.2 ≠ a.outPipe.2 := Ne.symm d14
  have q_i1_i2 : a.inPipe.1 ≠ a.inPipe.2 := d1
  have q_i1_o1 : a.inPipe.1 ≠ a.outPipe.1 := d2
  have q_i1_o2 : a.inPipe.1 ≠ a.outPipe.2 := d3
  have q_i2_o1 : a.inPipe.2 ≠ a.outPipe.1 := d6
  have q_i2_o2 : a.inPipe.2 ≠ a.outPipe.2 := d7
  have q_o1_o2 : a.outPipe.1 ≠ a.outPipe.2 := d10
  have q_o2_i1 : a.outPipe.2 ≠ a.inPipe.1 := Ne.symm d3
  have q_o2_i2 : a.outPipe.2 ≠ a.inPipe.2 := Ne.symm d7
  refine ⟨⟨?_, ?_, ?_, ?_, ?_, ?_, ?_, ?_, ?_⟩, ?_⟩
  · simp [childBranch, execTail_table, dup2, closefd, hc, hro, hre, hi1, ho2, b_o2_0, c_0_i1, c_0_i2, c_0_o1, c_0_o2, c_1_o1, c_1_o2, q_o2_i1, q_o2_i2]
  · simp [childBranch, execTail_table, dup2, closefd, hc, hro, hre, hi1, ho2, b_o2_0, c_1_o1, c_1_o2, q_o2_i1, q_o2_i2]
  · simp [childBranch, execTail_table, dup2, closefd, hc, hro, hre, hi1, ho2, b_o2_0, c_1_o1, c_1_o2, q_o2_i1, q_o2_i2]
  · simp [childBranch, execTail_table, dup2, closefd, hc, hro, hre, hi1, ho2, b_i1_1, b_i1_2, b_o2_0, c_1_o1, c_1_o2, q_i1_i2, q_i1_o1, q_i1_o2, q_o2_i1, q_o2_i2]
  · simp [childBranch, execTail_table, dup2, closefd, hc, hro, hre, hi1, ho2, b_i2_1, b_i2_2, b_o2_0, c_1_o1, c_1_o2, q_i2_o1, q_i2_o2, q_o2_i1, q_o2_i2]
  · simp [childBranch, execTail_table, dup2, closefd, hc, hro, hre, hi1, ho2, b_o1_2, b_o2_0, c_1_o1, c_1_o2, q_o1_o2, q_o2_i1, q_o2_i2]
  · simp [childBranch, execTail_table, dup2, closefd, hc, hro, hre, hi1, ho2, b_o2_0, b_o2_2, c_1_o1, c_1_o2, q_o2_i1, q_o2_i2]
  · simp [childBranch, execTail_table, dup2, closefd, hc, hro, hre, he1, hi1, ho2, b_e1_0, b_e1_1, b_e1_2, b_o2_0, c_1_o1, c_1_o2, q_e1_i1, q_e1_i2, q_e1_o1, q_e1_o2, q_o2_i1, q_o2_i2]
  · simp [childBranch, execTail_table, dup2, closefd, hc, hro, hre, he2, hi1, ho2, b_e2_0, b_e2_1, b_e2_2, b_o2_0, c_1_o1, c_1_o2, q_e2_i1, q_e2_i2, q_e2_o1, q_e2_o2, q_o2_i1, q_o2_i2]
  · intro fd hz0 hz1 hz2 hm
    simp only [pipeFds, List.mem_cons, List.mem_singleton, List.not_mem_nil, or_false,
      not_or] at hm
    obtain ⟨m1, m2, m3, m4, m5, m6⟩ := hm
    simp [childBranch, execTail_table, dup2, closefd, hc, hro, hre, hz0, hz1, hz2, m1, m2, m3, m4, m5, m6, hi1, ho2, b_o2_0, c_1_o1, c_1_o2, q_o2_i1, q_o2_i2]

set_option maxHeartbeats 2000000 in
/-- Characterization of the child descriptor table for this redirection
configuration, at the standard slots, the six pipe descriptors, and every
other descriptor. -/
theorem childBranch_split_table (a : LaunchArgs) (w : World) (t : FdTable)
    (hwf : pipesWF a t) (hc : w.chdirOk = true)
    (hro : a.redirectOut = true) (hre : a.redirectErr = false) :
    ((childBranch a w t).table 0 = some (FileObj.pRead 0) ∧
    (childBranch a w t).table 1 = some (FileObj.pWrite 1) ∧
    (childBranch a w t).table 2 = some (FileObj.pWrite 2) ∧
    (childBranch a w t).table a.inPipe.1 = none ∧
    (childBranch a w t).table a.inPipe.2 = none ∧
    (childBranch a w t).table a.outPipe.1 = none ∧
    (childBranch a w t).table a.outPipe.2 = none ∧
    (childBranch a w t).table a.errPipe.1 = none ∧
    (childBranch a w t).table a.errPipe.2 = none) ∧
    (∀ fd, fd ≠ 0 → fd ≠ 1 → fd ≠ 2 → fd ∉ pipeFds a → (childBranch a w t).table fd = t fd) := by
  obtain ⟨hnd, hgt, h0, h1, h2, hi1, hi2, ho1, ho2, he1, he2⟩ := hwf
  simp only [pipeFds, List.nodup_cons, List.mem_cons, List.mem_singleton, List.not_mem_nil,
    or_false, not_or, List.nodup_nil, and_true] at hnd
  obtain ⟨⟨d1, d2, d3, d4, d5⟩, ⟨d6, d7, d8, d9⟩, ⟨d10, d11, d12⟩, ⟨d13, d14⟩, d15, -⟩ := hnd
  have gi1 : 2 < a.inPipe.1 := hgt _ (by simp [pipeFds])
  have gi2 : 2 < a.inPipe.2 := hgt _ (by simp [pipeFds])
  have go1 : 2 < a.outPipe.1 := hgt _ (by simp [pipeFds])
  have go2 : 2 < a.outPipe.2 := hgt _ (by simp [pipeFds])
  have ge1 : 2 < a.errPipe.1 := hgt _ (by simp [pipeFds])
  have ge2 : 2 < a.errPipe.2 := hgt _ (by simp [pipeFds])
  obtain ⟨b_i1_0, b_i1_1, b_i1_2, c_0_i1, c_1_i1, c_2_i1⟩ := gt2_ne gi1
  obtain ⟨b_i2_0, b_i2_1, b_i2_2, c_0_i2, c_1_i2, c_2_i2⟩ := gt2_ne gi2
  obtain ⟨b_o1_0, b_o1_1, b_o1_2, c_0_o1, c_1_o1, c_2_o1⟩ := gt2_ne go1
  obtain ⟨b_o2_0, b_o2_1, b_o2_2, c_0_o2, c_1_o2, c_2_o2⟩ := gt2_ne go2
  obtain ⟨b_e1_0, b_e1_1, b_e1_2, c_0_e1, c_1_e1, c_2_e1⟩ := gt2_ne ge1
  obtain ⟨b_e2_0, b_e2_1, b_e2_2, c_0_e2, c_1_e2, c_2_e2⟩ := gt2_ne ge2
  have q_e1_e2 : a.errPipe.1 ≠ a.errPipe.2 := d15
  have q_e2_i1 : a.errPipe.2 ≠ a.inPipe.1 := Ne.symm d5
  have q_e2_i2 : a.errPipe.2 ≠ a.inPipe.2 := Ne.symm d9
  have q_e2_o1 : a.errPipe.2 ≠ a.outPipe.1 := Ne.symm d12
  have q_e2_o2 : a.errPipe.2 ≠ a.outPipe.2 := Ne.symm d14
  have q_i1_e1 : a.inPipe.1 ≠ a.errPipe.1 := d4
  have q_i1_e2 : a.inPipe.1 ≠ a.errPipe.2 := d5
  have q_i1_i2 : a.inPipe.1 ≠ a.inPipe.2 := d1
  have q_i1_o1 : a.inPipe.1 ≠ a.outPipe.1 := d2
  have q_i1_o2 : a.inPipe.1 ≠ a.outPipe.2 := d3
  have q_i2_e1 : a.inPipe.2 ≠ a.errPipe.1 := d8
  have q_i2_e2 : a.inPipe.2 ≠ a.errPipe.2 := d9
  have q_i2_o1 : a.inPipe.2 ≠ a.outPipe.1 := d6
  have q_i2_o2 : a.inPipe.2 ≠ a.outPipe.2 := d7
  have q_o1_e1 : a.outPipe.1 ≠ a.errPipe.1 := d11
  have q_o1_e2 : a.outPipe.1 ≠ a.errPipe.2 := d12
  have q_o1_o2 : a.outPipe.1 ≠ a.outPipe.2 := d10
  have q_o2_e1 : a.outPipe.2 ≠ a.errPipe.1 := d13
  have q_o2_e2 : a.outPipe.2 ≠ a.errPipe.2 := d14
  have q_o2_i1 : a.outPipe.2 ≠ a.inPipe.1 := Ne.symm d3
  have q_o2_i2 : a.outPipe.2 ≠ a.inPipe.2 := Ne.symm d7
  refine ⟨⟨?_, ?_, ?_, ?_, ?_, ?_, ?_, ?_, ?_⟩, ?_⟩
  · simp [childBranch, execTail_table, dup2, closefd, hc, hro, hre, he2, hi1, ho2, b_e2_0, b_e2_1, b_o2_0, c_0_e1, c_0_e2, c_0_i1, c_0_i2, c_0_o1, c_0_o2, q_e2_i1, q_e2_i2, q_e2_o1, q_e2_o2, q_o2_i1, q_o2_i2]
  · simp [childBranch, execTail_table, dup2, closefd, hc, hro, hre, he2, hi1, ho2, b_e2_0, b_e2_1, b_o2_0, c_1_e1, c_1_e2, c_1_o1, c_1_o2, q_e2_i1, q_e2_i2, q_e2_o1, q_e2_o2, q_o2_i1, q_o2_i2]
  · simp [childBranch, execTail_table, dup2, closefd, hc, hro, hre, he2, hi1, ho2, b_e2_0, b_e2_1, b_o2_0, c_2_e1, c_2_e2, q_e2_i1, q_e2_i2, q_e2_o1, q_e2_o2, q_o2_i1, q_o2_i2]
  · simp [childBranch, execTail_table, dup2, closefd, hc, hro, hre, he2, hi1, ho2, b_e2_0, b_e2_1, b_i1_1, b_i1_2, b_o2_0, q_e2_i1, q_e2_i2, q_e2_o1, q_e2_o2, q_i1_e1, q_i1_e2, q_i1_i2, q_i1_o1, q_i1_o2, q_o2_i1, q_o2_i2]
  · simp [childBranch, execTail_table, dup2, closefd, hc, hro, hre, he2, hi1, ho2, b_e2_0, b_e2_1, b_i2_1, b_i2_2, b_o2_0, q_e2_i1, q_e2_i2, q_e2_o1, q_e2_o2, q_i2_e1, q_i2_e2, q_i2_o1, q_i2_o2, q_o2_i1, q_o2_i2]
  · simp [childBranch, execTail_table, dup2, closefd, hc, hro, hre, he2, hi1, ho2, b_e2_0, b_e2_1, b_o1_2, b_o2_0, q_e2_i1, q_e2_i2, q_e2_o1, q_e2_o2, q_o1_e1, q_o1_e2, q_o1_o2, q_o2_i1, q_o2_i2]
  · simp [childBranch, execTail_table, dup2, closefd, hc, hro, hre, he2, hi1, ho2, b_e2_0, b_e2_1, b_o2_0, b_o2_2, q_e2_i1, q_e2_i2, q_e2_o1, q_e2_o2, q_o2_e1, q_o2_e2, q_o2_i1, q_o2_i2]
  · simp [childBranch, execTail_table, dup2, closefd, hc, hro, hre, q_e1_e2]
  · simp [childBranch, execTail_table, dup2, closefd, hc, hro, hre, ]
  · intro fd hz0 hz1 hz2 hm
    simp only [pipeFds, List.mem_cons, List.mem_singleton, List.not_mem_nil, or_false,
      not_or] at hm
    obtain ⟨m1, m2, m3, m4, m5, m6⟩ := hm
    simp [childBranch, execTail_table, dup2, closefd, hc, hro, hre, hz0, hz1, hz2, m1, m2, m3, m4, m5, m6, he2, hi1, ho2, b_e2_0, b_e2_1, b_o2_0, q_e2_i1, q_e2_i2, q_e2_o1, q_e2_o2, q_o2_i1, q_o2_i2]

set_option maxHeartbeats 2000000 in
/-- Characterization of the child descriptor table for this redirection
configuration, at the standard slots, the six pipe descriptors, and every
other descriptor. -/
theorem childBranch_noRedir_table (a : LaunchArgs) (w : World) (t : FdTable)
    (hwf : pipesWF a t) (hc : w.chdirOk = true)
    (hro : a.redirectOut = false) :
    ((childBranch a w t).table 0 = some (FileObj.pRead 0) ∧
    (childBranch a w t).table 1 = some FileObj.stdOut ∧
    (childBranch a w t).table 2 = some FileObj.stdErr ∧
    (childBranch a w t).table a.inPipe.1 = none ∧
    (childBranch a w t).table a.inPipe.2 = none ∧
    (childBranch a w t).table a.outPipe.1 = some (FileObj.pRead 1) ∧
    (childBranch a w t).table a.outPipe.2 = some (FileObj.pWrite 1) ∧
    (childBranch a w t).table a.errPipe.1 = some (FileObj.pRead 2) ∧
    (childBranch a w t).table a.errPipe.2 = some (FileObj.pWrite 2)) ∧
    (∀ fd, fd ≠ 0 → fd ≠ 1 → fd ≠ 2 → fd ∉ pipeFds a → (childBranch a w t).table fd = t fd) := by
  obtain ⟨hnd, hgt, h0, h1, h2, hi1, hi2, ho1, ho2, he1, he2⟩ := hwf
  simp only [pipeFds, List.nodup_cons, List.mem_cons, List.mem_singleton, List.not_mem_nil,
    or_false, not_or, List.nodup_nil, and_true] at hnd
  obtain ⟨⟨d1, d2, d3, d4, d5⟩, ⟨d6, d7, d8, d9⟩, ⟨d10, d11, d12⟩, ⟨d13, d14⟩, d15, -⟩ := hnd
  have gi1 : 2 < a.inPipe.1 := hgt _ (by simp [pipeFds])
  have gi2 : 2 < a.inPipe.2 := hgt _ (by simp [pipeFds])
  have go1 : 2 < a.outPipe.1 := hgt _ (by simp [pipeFds])
  have go2 : 2 < a.outPipe.2 := hgt _ (by simp [pipeFds])
  have ge1 : 2 < a.errPipe.1 := hgt _ (by simp [pipeFds])
  have ge2 : 2 < a.errPipe.2 := hgt _ (by simp [pipeFds])
  obtain ⟨b_i1_0, b_i1_1, b_i1_2, c_0_i1, c_1_i1, c_2_i1⟩ := gt2_ne gi1
  obtain ⟨b_i2_0, b_i2_1, b_i2_2, c_0_i2, c_1_i2, c_2_i2⟩ := gt2_ne gi2
  obtain ⟨b_o1_0, b_o1_1, b_o1_2, c_0_o1, c_1_o1, c_2_o1⟩ := gt2_ne go1
  obtain ⟨b_o2_0, b_o2_1, b_o2_2, c_0_o2, c_1_o2, c_2_o2⟩ := gt2_ne go2
  obtain ⟨b_e1_0, b_e1_1, b_e1_2, c_0_e1, c_1_e1, c_2_e1⟩ := gt2_ne ge1
  obtain ⟨b_e2_0, b_e2_1, b_e2_2, c_0_e2, c_1_e2, c_2_e2⟩ := gt2_ne ge2
  have q_e1_i1 : a.errPipe.1 ≠ a.inPipe.1 := Ne.symm d4
  have q_e1_i2 : a.errPipe.1 ≠ a.inPipe.2 := Ne.symm d8
  have q_e2_i1 : a.errPipe.2 ≠ a.inPipe.1 := Ne.symm d5
  have q_e2_i2 : a.errPipe.2 ≠ a.inPipe.2 := Ne.symm d9
  have q_i1_i2 : a.inPipe.1 ≠ a.inPipe.2 := d1
  have q_o1_i1 : a.outPipe.1 ≠ a.inPipe.1 := Ne.symm d2
  have q_o1_i2 : a.outPipe.1 ≠ a.inPipe.2 := Ne.symm d6
  have q_o2_i1 : a.outPipe.2 ≠ a.inPipe.1 := Ne.symm d3
  have q_o2_i2 : a.outPipe.2 ≠ a.inPipe.2 := Ne.symm d7
  refine ⟨⟨?_, ?_, ?_, ?_, ?_, ?_, ?_, ?_, ?_⟩, ?_⟩
  · simp [childBranch, execTail_table, dup2, closefd, hc, hro, h1, h2, hi1, c_0_i1, c_0_i2, c_1_i1, c_1_i2, c_2_i1, c_2_i2]
  · simp [childBranch, execTail_table, dup2, closefd, hc, hro, h1, h2, hi1, c_1_i1, c_1_i2, c_2_i1, c_2_i2]
  · simp [childBranch, execTail_table, dup2, closefd, hc, hro, h1, h2, hi1, c_1_i1, c_1_i2, c_2_i1, c_2_i2]
  · simp [childBranch, execTail_table, dup2, closefd, hc, hro, h1, h2, hi1, b_i1_1, b_i1_2, c_1_i1, c_1_i2, c_2_i1, c_2_i2, q_i1_i2]
  · simp [childBranch, execTail_table, dup2, closefd, hc, hro, h1, h2, hi1, b_i2_1, b_i2_2, c_1_i1, c_1_i2, c_2_i1, c_2_i2]
  · simp [childBranch, execTail_table, dup2, closefd, hc, hro, h1, h2, hi1, ho1, b_o1_0, b_o1_1, b_o1_2, c_1_i1, c_1_i2, c_2_i1, c_2_i2, q_o1_i1, q_o1_i2]
  · simp [childBranch, execTail_table, dup2, closefd, hc, hro, h1, h2, hi1, ho2, b_o2_0, b_o2_1, b_o2_2, c_1_i1, c_1_i2, c_2_i1, c_2_i2, q_o2_i1, q_o2_i2]
  · simp [childBranch, execTail_table, dup2, closefd, hc, hro, h1, h2, he1, hi1, b_e1_0, b_e1_1, b_e1_2, c_1_i1, c_1_i2, c_2_i1, c_2_i2, q_e1_i1, q_e1_i2]
  · simp [childBranch, execTail_table, dup2, closefd, hc, hro, h1, h2, he2, hi1, b_e2_0, b_e2_1, b_e2_2, c_1_i1, c_1_i2, c_2_i1, c_2_i2, q_e2_i1, q_e2_i2]
  · intro fd hz0 hz1 hz2 hm
    simp only [pipeFds, List.mem_cons, List.mem_singleton, List.not_mem_nil, or_false,
      not_or] at hm
    obtain ⟨m1, m2, m3, m4, m5, m6⟩ := hm
    simp [childBranch, execTail_table, dup2, closefd, hc, hro, hz0, hz1, hz2, m1, m2, m3, m4, m5, m6, h1, h2, hi1, c_1_i1, c_1_i2, c_2_i1, c_2_i2]

/-- The outcome of the child branch depends only on whether chdir and
execve succeed: exit 1 on chdir failure, exec on success, exit 1 when
execve returns. -/
theorem childBranch_outcome (a : LaunchArgs) (w : World) (t : FdTable) :
    (childBranch a w t).outcome =
      if w.chdirOk then
        (if w.execOk then ChildOutcome.execed a.cmd else ChildOutcome.exited EXIT_FAILURE)
      else ChildOutcome.exited EXIT_FAILURE := by
  cases hc : w.chdirOk <;> cases hro : a.redirectOut <;> cases hre : a.redirectErr <;>
    cases hex : w.execOk <;> simp [childBranch, execTail, hc, hro, hre, hex]

/-- C1: the claim says a fork failure is reported synchronously to the
caller as a fatal launch error, with the parent continuing to run. The
code instead executes perror followed by an unconditional
underscore-exit in the calling process: evaluated at a launch whose fork
fails, the call never returns to the caller and the calling process
terminates with status EXIT_FAILURE. The parts of the claim about side
effects do hold: no child is spawned, the pid out-parameter is set to the
fork return value -1, and the parent descriptor table is untouched. -/
theorem C1_fork_failure_kills_caller :
    (SPM_fork_exec_chdir argsMerge worldForkFail parent0).returnedToCaller = false ∧
    (SPM_fork_exec_chdir argsMerge worldForkFail parent0).status = EXIT_FAILURE ∧
    (SPM_fork_exec_chdir argsMerge worldForkFail parent0).childOutcome = none ∧
    (SPM_fork_exec_chdir argsMerge worldForkFail parent0).finalParent.pidOut = -1 ∧
    (SPM_fork_exec_chdir argsMerge worldForkFail parent0).finalParent.table = table0 ∧
    (SPM_fork_exec_chdir argsMerge worldForkFail parent0).parentTrace =
      [Ev.perrorCall "fork() failed", Ev.exitCall EXIT_FAILURE] :=
  ⟨rfl, rfl, rfl, rfl, rfl, rfl⟩

/-- C2: when the chdir in the child fails, the child exits with
EXIT_FAILURE before execve is ever called, and when execve returns the
child likewise exits with EXIT_FAILURE; in both cases the call still
returns normally to the caller, whose only observation is the non-zero
raw wait status 256 (exit code 1), never a distinct error value. -/
theorem C2_child_setup_failure_only_wait_status (a : LaunchArgs) (w : World)
    (p : ParentState) (pid : Nat) (hf : w.forkPid = some pid) :
    (w.chdirOk = false →
      (SPM_fork_exec_chdir a w p).childOutcome = some (ChildOutcome.exited EXIT_FAILURE) ∧
      (∀ e ∈ (SPM_fork_exec_chdir a w p).childTrace, e.isExecCall = false) ∧
      (SPM_fork_exec_chdir a w p).returnedToCaller = true ∧
      (SPM_fork_exec_chdir a w p).status = 256 ∧
      (SPM_fork_exec_chdir a w p).status ≠ 0) ∧
    (w.chdirOk = true → w.execOk = false →
      (SPM_fork_exec_chdir a w p).childOutcome = some (ChildOutcome.exited EXIT_FAILURE) ∧
      (SPM_fork_exec_chdir a w p).returnedToCaller = true ∧
      (SPM_fork_exec_chdir a w p).status = 256 ∧
      (SPM_fork_exec_chdir a w p).status ≠ 0) := by
  constructor
  · intro hc
    refine ⟨?_, ?_, ?_, ?_, ?_⟩ <;>
      simp [SPM_fork_exec_chdir, hf, childBranch, hc, rawWaitStatus, EXIT_FAILURE,
            Ev.isExecCall]
  · intro hc hex
    have ho := childBranch_outcome a w p.table
    rw [hc, hex] at ho
    refine ⟨?_, ?_, ?_, ?_⟩ <;>
      simp [SPM_fork_exec_chdir, hf, ho, rawWaitStatus, EXIT_FAILURE]

/-- Witness for C2 at the §8 scenario with a missing target directory. -/
theorem C2_witness :
    worldChdirFail.forkPid = some 42 ∧
    ((SPM_fork_exec_chdir argsMerge worldChdirFail parent0).childOutcome =
        some (ChildOutcome.exited EXIT_FAILURE) ∧
      (∀ e ∈ (SPM_fork_exec_chdir argsMerge worldChdirFail parent0).childTrace,
        e.isExecCall = false) ∧
      (SPM_fork_exec_chdir argsMerge worldChdirFail parent0).returnedToCaller = true ∧
      (SPM_fork_exec_chdir argsMerge worldChdirFail parent0).status = 256 ∧
      (SPM_fork_exec_chdir argsMerge worldChdirFail parent0).status ≠ 0) :=
  ⟨rfl,
   (C2_child_setup_failure_only_wait_status argsMerge worldChdirFail parent0 42 rfl).1 rfl⟩

/-- C5: in the parent branch the launcher waits once for the spawned
child and returns the raw wait status; it performs no dup2 or close, and
the caller-visible parent descriptor table and working directory are
unchanged. -/
theorem C5_parent_waits_and_touches_nothing (a : LaunchArgs) (w : World)
    (p : ParentState) (pid : Nat) (hf : w.forkPid = some pid) :
    (SPM_fork_exec_chdir a w p).returnedToCaller = true ∧
    (SPM_fork_exec_chdir a w p).status = rawWaitStatus w (childBranch a w p.table).outcome ∧
    (SPM_fork_exec_chdir a w p).parentTrace = [Ev.waitpidCall pid] ∧
    (∀ e ∈ (SPM_fork_exec_chdir a w p).parentTrace, e.isRewire = false) ∧
    (SPM_fork_exec_chdir a w p).finalParent.table = p.table ∧
    (SPM_fork_exec_chdir a w p).finalParent.cwd = p.cwd := by
  refine ⟨?_, ?_, ?_, ?_, ?_, ?_⟩ <;>
    simp [SPM_fork_exec_chdir, hf, Ev.isRewire]

/-- Witness for C5 at the §8 scenario. -/
theorem C5_witness :
    worldOk.forkPid = some 42 ∧
    ((SPM_fork_exec_chdir argsSplit worldOk parent0).returnedToCaller = true ∧
      (SPM_fork_exec_chdir argsSplit worldOk parent0).status =
        rawWaitStatus worldOk (childBranch argsSplit worldOk parent0.table).outcome ∧
      (SPM_fork_exec_chdir argsSplit worldOk parent0).parentTrace = [Ev.waitpidCall 42] ∧
      (∀ e ∈ (SPM_fork_exec_chdir argsSplit worldOk parent0).parentTrace,
        e.isRewire = false) ∧
      (SPM_fork_exec_chdir argsSplit worldOk parent0).finalParent.table = parent0.table ∧
      (SPM_fork_exec_chdir argsSplit worldOk parent0).finalParent.cwd = parent0.cwd) :=
  ⟨rfl, C5_parent_waits_and_touches_nothing argsSplit worldOk parent0 42 rfl⟩

/-- C3: with redirection and merge requested, the child dupes the output
pipe write end onto slot 1, closes both original output pipe ends, and
then dupes slot 1 onto slot 2; afterwards both slot 1 and slot 2 denote
the output pipe write object, and slot 2 does not denote the error pipe
write object, so error-stream writes flow into the output pipe and
nothing reaches the error pipe. -/
theorem C3_merge_error_into_output (a : LaunchArgs) (w : World) (p : ParentState)
    (pid : Nat) (hf : w.forkPid = some pid) (hwf : pipesWF a p.table)
    (hc : w.chdirOk = true) (hro : a.redirectOut = true) (hre : a.redirectErr = true) :
    (∃ rest, (SPM_fork_exec_chdir a w p).childTrace =
      Ev.chdirCall a.cwd true :: Ev.dup2Call a.inPipe.1 0 :: Ev.closeCall a.inPipe.1 ::
      Ev.closeCall a.inPipe.2 :: Ev.dup2Call a.outPipe.2 1 :: Ev.closeCall a.outPipe.1 ::
      Ev.closeCall a.outPipe.2 :: Ev.dup2Call 1 2 :: rest) ∧
    (SPM_fork_exec_chdir a w p).childTable 1 = some (FileObj.pWrite 1) ∧
    (SPM_fork_exec_chdir a w p).childTable 2 = some (FileObj.pWrite 1) ∧
    (SPM_fork_exec_chdir a w p).childTable a.outPipe.1 = none ∧
    (SPM_fork_exec_chdir a w p).childTable a.outPipe.2 = none ∧
    (SPM_fork_exec_chdir a w p).childTable 2 ≠ some (FileObj.pWrite 2) := by
  obtain ⟨⟨v0, v1, v2, vi1, vi2, vo1, vo2, ve1, ve2⟩, hframe⟩ :=
    childBranch_merge_table a w p.table hwf hc hro hre
  have htab : (SPM_fork_exec_chdir a w p).childTable = (childBranch a w p.table).table := by
    simp [SPM_fork_exec_chdir, hf]
  refine ⟨?_, ?_, ?_, ?_, ?_, ?_⟩
  · cases hex : w.execOk
    · exact ⟨[Ev.execCall a.cmd, Ev.perrorCall a.cmd, Ev.exitCall EXIT_FAILURE], by
        simp [SPM_fork_exec_chdir, hf, childBranch, execTail, hc, hro, hre, hex]⟩
    · exact ⟨[Ev.execCall a.cmd], by
        simp [SPM_fork_exec_chdir, hf, childBranch, execTail, hc, hro, hre, hex]⟩
  · rw [htab]; exact v1
  · rw [htab]; exact v2
  · rw [htab]; exact vo1
  · rw [htab]; exact vo2
  · rw [htab, v2]; simp

/-- Witness for C3 at the §8 scenario. -/
theorem C3_witness :
    worldOk.forkPid = some 42 ∧ pipesWF argsMerge parent0.table ∧
    worldOk.chdirOk = true ∧ argsMerge.redirectOut = true ∧ argsMerge.redirectErr = true ∧
    ((∃ rest, (SPM_fork_exec_chdir argsMerge worldOk parent0).childTrace =
      Ev.chdirCall argsMerge.cwd true :: Ev.dup2Call argsMerge.inPipe.1 0 ::
      Ev.closeCall argsMerge.inPipe.1 :: Ev.closeCall argsMerge.inPipe.2 ::
      Ev.dup2Call argsMerge.outPipe.2 1 :: Ev.closeCall argsMerge.outPipe.1 ::
      Ev.closeCall argsMerge.outPipe.2 :: Ev.dup2Call 1 2 :: rest) ∧
    (SPM_fork_exec_chdir argsMerge worldOk parent0).childTable 1 = some (FileObj.pWrite 1) ∧
    (SPM_fork_exec_chdir argsMerge worldOk parent0).childTable 2 = some (FileObj.pWrite 1) ∧
    (SPM_fork_exec_chdir argsMerge worldOk parent0).childTable argsMerge.outPipe.1 = none ∧
    (SPM_fork_exec_chdir argsMerge worldOk parent0).childTable argsMerge.outPipe.2 = none ∧
    (SPM_fork_exec_chdir argsMerge worldOk parent0).childTable 2 ≠ some (FileObj.pWrite 2)) :=
  ⟨rfl, by decide, rfl, rfl, rfl,
   C3_merge_error_into_output argsMerge worldOk parent0 42 rfl (by decide) rfl rfl rfl⟩

/-- C6: with redirection and no merge, the child dupes the input pipe
read end onto slot 0, the output pipe write end onto slot 1, and the
error pipe write end onto slot 2, closing both original ends of all
three pipe pairs; afterwards the three slots denote the three distinct
pipe objects, so output and error writes reach distinct read ends. -/
theorem C6_distinct_redirect_wiring (a : LaunchArgs) (w : World) (p : ParentState)
    (pid : Nat) (hf : w.forkPid = some pid) (hwf : pipesWF a p.table)
    (hc : w.chdirOk = true) (hro : a.redirectOut = true) (hre : a.redirectErr = false) :
    (∃ rest, (SPM_fork_exec_chdir a w p).childTrace =
      Ev.chdirCall a.cwd true :: Ev.dup2Call a.inPipe.1 0 :: Ev.closeCall a.inPipe.1 ::
      Ev.closeCall a.inPipe.2 :: Ev.dup2Call a.outPipe.2 1 :: Ev.closeCall a.outPipe.1 ::
      Ev.closeCall a.outPipe.2 :: Ev.dup2Call a.errPipe.2 2 :: Ev.closeCall a.errPipe.1 ::
      Ev.closeCall a.errPipe.2 :: rest) ∧
    (SPM_fork_exec_chdir a w p).childTable 0 = some (FileObj.pRead 0) ∧
    (SPM_fork_exec_chdir a w p).childTable 1 = some (FileObj.pWrite 1) ∧
    (SPM_fork_exec_chdir a w p).childTable 2 = some (FileObj.pWrite 2) ∧
    (SPM_fork_exec_chdir a w p).childTable a.inPipe.1 = none ∧
    (SPM_fork_exec_chdir a w p).childTable a.inPipe.2 = none ∧
    (SPM_fork_exec_chdir a w p).childTable a.outPipe.1 = none ∧
    (SPM_fork_exec_chdir a w p).childTable a.outPipe.2 = none ∧
    (SPM_fork_exec_chdir a w p).childTable a.errPipe.1 = none ∧
    (SPM_fork_exec_chdir a w p).childTable a.errPipe.2 = none ∧
    (SPM_fork_exec_chdir a w p).childTable 1 ≠ (SPM_fork_exec_chdir a w p).childTable 2 := by
  obtain ⟨⟨v0, v1, v2, vi1, vi2, vo1, vo2, ve1, ve2⟩, hframe⟩ :=
    childBranch_split_table a w p.table hwf hc hro hre
  have htab : (SPM_fork_exec_chdir a w p).childTable = (childBranch a w p.table).table := by
    simp [SPM_fork_exec_chdir, hf]
  refine ⟨?_, ?_, ?_, ?_, ?_, ?_, ?_, ?_, ?_, ?_, ?_⟩
  · cases hex : w.execOk
    · exact ⟨[Ev.execCall a.cmd, Ev.perrorCall a.cmd, Ev.exitCall EXIT_FAILURE], by
        simp [SPM_fork_exec_chdir, hf, childBranch, execTail, hc, hro, hre, hex]⟩
    · exact ⟨[Ev.execCall a.cmd], by
        simp [SPM_fork_exec_chdir, hf, childBranch, execTail, hc, hro, hre, hex]⟩
  · rw [htab]; exact v0
  · rw [htab]; exact v1
  · rw [htab]; exact v2
  · rw [htab]; exact vi1
  · rw [htab]; exact vi2
  · rw [htab]; exact vo1
  · rw [htab]; exact vo2
  · rw [htab]; exact ve1
  · rw [htab]; exact ve2
  · rw [htab, v1, v2]; simp

/-- Witness for C6 at the §8 scenario. -/
theorem C6_witness :
    worldOk.forkPid = some 42 ∧ pipesWF argsSplit parent0.table ∧
    worldOk.chdirOk = true ∧ argsSplit.redirectOut = true ∧ argsSplit.redirectErr = false ∧
    ((SPM_fork_exec_chdir argsSplit worldOk parent0).childTable 0 = some (FileObj.pRead 0) ∧
    (SPM_fork_exec_chdir argsSplit worldOk parent0).childTable 1 = some (FileObj.pWrite 1) ∧
    (SPM_fork_exec_chdir argsSplit worldOk parent0).childTable 2 = some (FileObj.pWrite 2)) :=
  ⟨rfl, by decide, rfl, rfl, rfl, by
    have h := C6_distinct_redirect_wiring argsSplit worldOk parent0 42 rfl (by decide) rfl rfl rfl
    exact ⟨h.2.1, h.2.2.1, h.2.2.2.1⟩⟩

/-- C7: on every platform where the probe reports the native chdir-spawn
facility as unsupported (not glibc, or glibc without prerequisite 2.29),
the wrapper returns ENOSYS, which is non-zero, and never invokes the
native facility, so the directory change is neither performed nor
silently dropped. -/
theorem C7_unsupported_returns_enosys (c : CLibrary) (nativeRet : Nat)
    (h : SPM_posix_spawn_file_actions_addchdir_np_supported c = false) :
    SPM_posix_spawn_file_actions_addchdir_np c nativeRet =
      { ret := ENOSYS, nativeCalled := false } ∧
    (SPM_posix_spawn_file_actions_addchdir_np c nativeRet).ret ≠ 0 := by
  cases hg : c.isGlibc <;> cases hp : glibcPrereq c 2 29 <;>
    simp [SPM_posix_spawn_file_actions_addchdir_np_supported, hg, hp] at h ⊢ <;>
    simp [SPM_posix_spawn_file_actions_addchdir_np, hg, hp, ENOSYS]

/-- Witness for C7: glibc 2.27 (below the 2.29 prerequisite). -/
theorem C7_witness :
    SPM_posix_spawn_file_actions_addchdir_np_supported
      { isGlibc := true, glibcMajor := 2, glibcMinor := 27 } = false ∧
    (SPM_posix_spawn_file_actions_addchdir_np
      { isGlibc := true, glibcMajor := 2, glibcMinor := 27 } 0 =
        { ret := ENOSYS, nativeCalled := false } ∧
     (SPM_posix_spawn_file_actions_addchdir_np
      { isGlibc := true, glibcMajor := 2, glibcMinor := 27 } 0).ret ≠ 0) :=
  ⟨by decide,
   C7_unsupported_returns_enosys { isGlibc := true, glibcMajor := 2, glibcMinor := 27 } 0
     (by decide)⟩

/-- When redirection is off, the child branch does not depend on the
merge flag at all. -/
theorem childBranch_ignores_merge_flag (a : LaunchArgs) (w : World) (t : FdTable)
    (flag : Bool) (hro : a.redirectOut = false) :
    childBranch { a with redirectErr := flag } w t = childBranch a w t := by
  simp [childBranch, execTail, hro]

/-- C4: with redirection off, slot 1 and slot 2 keep whatever the parent
had bound there (here the parent streams), neither can denote any pipe
object, the four output/error pipe descriptors are untouched, and the
merge flag is ignored entirely. -/
theorem C4_no_redirect_inherits_parent_streams (a : LaunchArgs) (w : World)
    (p : ParentState) (pid : Nat) (flag : Bool) (hf : w.forkPid = some pid)
    (hwf : pipesWF a p.table) (hc : w.chdirOk = true) (hro : a.redirectOut = false) :
    (SPM_fork_exec_chdir a w p).childTable 1 = p.table 1 ∧
    (SPM_fork_exec_chdir a w p).childTable 2 = p.table 2 ∧
    (SPM_fork_exec_chdir a w p).childTable a.outPipe.1 = p.table a.outPipe.1 ∧
    (SPM_fork_exec_chdir a w p).childTable a.outPipe.2 = p.table a.outPipe.2 ∧
    (SPM_fork_exec_chdir a w p).childTable a.errPipe.1 = p.table a.errPipe.1 ∧
    (SPM_fork_exec_chdir a w p).childTable a.errPipe.2 = p.table a.errPipe.2 ∧
    (∀ k, (SPM_fork_exec_chdir a w p).childTable 1 ≠ some (FileObj.pRead k) ∧
      (SPM_fork_exec_chdir a w p).childTable 1 ≠ some (FileObj.pWrite k) ∧
      (SPM_fork_exec_chdir a w p).childTable 2 ≠ some (FileObj.pRead k) ∧
      (SPM_fork_exec_chdir a w p).childTable 2 ≠ some (FileObj.pWrite k)) ∧
    SPM_fork_exec_chdir { a with redirectErr := flag } w p = SPM_fork_exec_chdir a w p := by
  obtain ⟨⟨v0, v1, v2, vi1, vi2, vo1, vo2, ve1, ve2⟩, hframe⟩ :=
    childBranch_noRedir_table a w p.table hwf hc hro
  obtain ⟨-, -, -, h1, h2, -, -, ho1, ho2, he1, he2⟩ := hwf
  have htab : (SPM_fork_exec_chdir a w p).childTable = (childBranch a w p.table).table := by
    simp [SPM_fork_exec_chdir, hf]
  refine ⟨?_, ?_, ?_, ?_, ?_, ?_, ?_, ?_⟩
  · rw [htab, v1, h1]
  · rw [htab, v2, h2]
  · rw [htab, vo1, ho1]
  · rw [htab, vo2, ho2]
  · rw [htab, ve1, he1]
  · rw [htab, ve2, he2]
  · intro k
    rw [htab, v1, v2]
    simp
  · unfold SPM_fork_exec_chdir
    rw [childBranch_ignores_merge_flag a w p.table flag hro]

/-- Witness for C4 with no redirection over the standard table. -/
theorem C4_witness :
    worldOk.forkPid = some 42 ∧ pipesWF argsNoRedir parent0.table ∧
    worldOk.chdirOk = true ∧ argsNoRedir.redirectOut = false ∧
    ((SPM_fork_exec_chdir argsNoRedir worldOk parent0).childTable 1 =
        parent0.table 1 ∧
      (SPM_fork_exec_chdir argsNoRedir worldOk parent0).childTable 2 =
        parent0.table 2 ∧
      SPM_fork_exec_chdir { argsNoRedir with redirectErr := true } worldOk parent0 =
        SPM_fork_exec_chdir argsNoRedir worldOk parent0) :=
  ⟨rfl, by decide, rfl, rfl, by
    have h := C4_no_redirect_inherits_parent_streams argsNoRedir worldOk parent0 42 true
      rfl (by decide) rfl rfl
    exact ⟨h.1, h.2.1, h.2.2.2.2.2.2.2⟩⟩

/-- C8: the first child event is always the chdir; when the chdir fails
no rewiring and no exec occur at all; when it succeeds the trace is the
chdir, then rewiring events only, then the exec, and after the exec no
further rewiring or exec; and the child branch always terminates in an
exit or exec outcome, never falling through to shared code. -/
theorem C8_child_branch_ordering (a : LaunchArgs) (w : World) (p : ParentState)
    (pid : Nat) (hf : w.forkPid = some pid) :
    (SPM_fork_exec_chdir a w p).childTrace.head? = some (Ev.chdirCall a.cwd w.chdirOk) ∧
    (w.chdirOk = false →
      ∀ e ∈ (SPM_fork_exec_chdir a w p).childTrace,
        e.isRewire = false ∧ e.isExecCall = false) ∧
    (w.chdirOk = true →
      ∃ rws rest, (SPM_fork_exec_chdir a w p).childTrace =
          Ev.chdirCall a.cwd true :: rws ++ Ev.execCall a.cmd :: rest ∧
        (∀ e ∈ rws, e.isRewire = true) ∧
        (∀ e ∈ rest, e.isRewire = false ∧ e.isExecCall = false)) ∧
    (SPM_fork_exec_chdir a w p).childOutcome ≠ some ChildOutcome.fellThrough ∧
    (SPM_fork_exec_chdir a w p).childOutcome ≠ none := by
  have hco := childBranch_outcome a w p.table
  refine ⟨?_, ?_, ?_, ?_, ?_⟩
  · cases hc : w.chdirOk <;> cases hro : a.redirectOut <;> cases hre : a.redirectErr <;>
      cases hex : w.execOk <;>
      simp [SPM_fork_exec_chdir, hf, childBranch, execTail, hc, hro, hre, hex]
  · intro hc
    simp [SPM_fork_exec_chdir, hf, childBranch, hc, Ev.isRewire, Ev.isExecCall]
  · intro hc
    have hrest : ∀ e ∈ (if w.execOk then ([] : List Ev)
        else [Ev.perrorCall a.cmd, Ev.exitCall EXIT_FAILURE]),
        e.isRewire = false ∧ e.isExecCall = false := by
      cases hex : w.execOk <;> simp [Ev.isRewire, Ev.isExecCall]
    cases hro : a.redirectOut
    · refine ⟨[Ev.dup2Call a.inPipe.1 0, Ev.closeCall a.inPipe.1, Ev.closeCall a.inPipe.2,
        Ev.dup2Call 1 1, Ev.dup2Call 2 2],
        if w.execOk then [] else [Ev.perrorCall a.cmd, Ev.exitCall EXIT_FAILURE],
        ?_, by simp [Ev.isRewire], hrest⟩
      cases hex : w.execOk <;>
        simp [SPM_fork_exec_chdir, hf, childBranch, execTail, hc, hro, hex]
    · cases hre : a.redirectErr
      · refine ⟨[Ev.dup2Call a.inPipe.1 0, Ev.closeCall a.inPipe.1, Ev.closeCall a.inPipe.2,
          Ev.dup2Call a.outPipe.2 1, Ev.closeCall a.outPipe.1, Ev.closeCall a.outPipe.2,
          Ev.dup2Call a.errPipe.2 2, Ev.closeCall a.errPipe.1, Ev.closeCall a.errPipe.2],
          if w.execOk then [] else [Ev.perrorCall a.cmd, Ev.exitCall EXIT_FAILURE],
          ?_, by simp [Ev.isRewire], hrest⟩
        cases hex : w.execOk <;>
          simp [SPM_fork_exec_chdir, hf, childBranch, execTail, hc, hro, hre, hex]
      · refine ⟨[Ev.dup2Call a.inPipe.1 0, Ev.closeCall a.inPipe.1, Ev.closeCall a.inPipe.2,
          Ev.dup2Call a.outPipe.2 1, Ev.closeCall a.outPipe.1, Ev.closeCall a.outPipe.2,
          Ev.dup2Call 1 2],
          if w.execOk then [] else [Ev.perrorCall a.cmd, Ev.exitCall EXIT_FAILURE],
          ?_, by simp [Ev.isRewire], hrest⟩
        cases hex : w.execOk <;>
          simp [SPM_fork_exec_chdir, hf, childBranch, execTail, hc, hro, hre, hex]
  · cases hc : w.chdirOk <;> cases hex : w.execOk <;>
      simp [SPM_fork_exec_chdir, hf, hco, hc, hex]
  · simp [SPM_fork_exec_chdir, hf]

/-- Witness for C8 at the §8 scenario. -/
theorem C8_witness :
    worldOk.forkPid = some 42 ∧
    ((SPM_fork_exec_chdir argsSplit worldOk parent0).childTrace.head? =
        some (Ev.chdirCall argsSplit.cwd worldOk.chdirOk) ∧
      (SPM_fork_exec_chdir argsSplit worldOk parent0).childOutcome ≠
        some ChildOutcome.fellThrough) :=
  ⟨rfl, by
    have h := C8_child_branch_ordering argsSplit worldOk parent0 42 rfl
    exact ⟨h.1, h.2.2.2.1⟩⟩

/-- C9 counterexample: the claim says no entity of the launch survives
past the return of the call, the child-process handle in particular not
being exposed to the caller. In the code `*pid = fork()` stores the child
pid through the caller-supplied out-parameter, so after the call returns
the caller-visible pid location has changed from its initial value 0 to
the child pid 42: the handle does survive the return. -/
theorem C9_counterexample :
    ¬ ((SPM_fork_exec_chdir argsMerge worldOk parent0).finalParent.pidOut =
        parent0.pidOut) := by
  decide

/-- C9 as amended: the handle is consumed inside the call by exactly one
blocking wait and the call is synchronous end-to-end, but the pid value
is written through the caller-supplied out-parameter and therefore
remains in caller-visible state after the call returns. -/
theorem C9_handle_waited_once_but_pid_escapes (a : LaunchArgs) (w : World)
    (p : ParentState) (pid : Nat) (hf : w.forkPid = some pid) :
    (SPM_fork_exec_chdir a w p).parentTrace = [Ev.waitpidCall pid] ∧
    (SPM_fork_exec_chdir a w p).returnedToCaller = true ∧
    (SPM_fork_exec_chdir a w p).finalParent.pidOut = Int.ofNat pid := by
  refine ⟨?_, ?_, ?_⟩ <;> simp [SPM_fork_exec_chdir, hf]

/-- Witness for the amended C9. -/
theorem C9_witness :
    worldOk.forkPid = some 42 ∧
    ((SPM_fork_exec_chdir argsMerge worldOk parent0).parentTrace = [Ev.waitpidCall 42] ∧
      (SPM_fork_exec_chdir argsMerge worldOk parent0).returnedToCaller = true ∧
      (SPM_fork_exec_chdir argsMerge worldOk parent0).finalParent.pidOut = Int.ofNat 42) :=
  ⟨rfl, C9_handle_waited_once_but_pid_escapes argsMerge worldOk parent0 42 rfl⟩

/-- C10: pipe descriptors the child does not rewire are left exactly as
inherited and stay open across the exec: with merge requested both error
pipe ends keep denoting the error pipe objects, and with redirection off
all four output/error pipe descriptors keep their inherited bindings; in
each case a successful execve hands this table to the executed
program. -/
theorem C10_unrewired_ends_stay_open (a : LaunchArgs) (w : World) (p : ParentState)
    (pid : Nat) (hf : w.forkPid = some pid) (hwf : pipesWF a p.table)
    (hc : w.chdirOk = true) :
    (a.redirectOut = true → a.redirectErr = true →
      (SPM_fork_exec_chdir a w p).childTable a.errPipe.1 = p.table a.errPipe.1 ∧
      (SPM_fork_exec_chdir a w p).childTable a.errPipe.2 = p.table a.errPipe.2 ∧
      (SPM_fork_exec_chdir a w p).childTable a.errPipe.1 = some (FileObj.pRead 2) ∧
      (SPM_fork_exec_chdir a w p).childTable a.errPipe.2 = some (FileObj.pWrite 2) ∧
      (w.execOk = true →
        (SPM_fork_exec_chdir a w p).childOutcome = some (ChildOutcome.execed a.cmd))) ∧
    (a.redirectOut = false →
      (SPM_fork_exec_chdir a w p).childTable a.outPipe.1 = p.table a.outPipe.1 ∧
      (SPM_fork_exec_chdir a w p).childTable a.outPipe.2 = p.table a.outPipe.2 ∧
      (SPM_fork_exec_chdir a w p).childTable a.errPipe.1 = p.table a.errPipe.1 ∧
      (SPM_fork_exec_chdir a w p).childTable a.errPipe.2 = p.table a.errPipe.2 ∧
      (w.execOk = true →
        (SPM_fork_exec_chdir a w p).childOutcome = some (ChildOutcome.execed a.cmd))) := by
  have hco := childBranch_outcome a w p.table
  have htab : (SPM_fork_exec_chdir a w p).childTable = (childBranch a w p.table).table := by
    simp [SPM_fork_exec_chdir, hf]
  constructor
  · intro hro hre
    obtain ⟨⟨v0, v1, v2, vi1, vi2, vo1, vo2, ve1, ve2⟩, hframe⟩ :=
      childBranch_merge_table a w p.table hwf hc hro hre
    obtain ⟨-, -, -, -, -, -, -, -, -, he1, he2⟩ := hwf
    refine ⟨?_, ?_, ?_, ?_, ?_⟩
    · rw [htab, ve1, he1]
    · rw [htab, ve2, he2]
    · rw [htab, ve1]
    · rw [htab, ve2]
    · intro hex
      simp [SPM_fork_exec_chdir, hf, hco, hc, hex]
  · intro hro
    obtain ⟨⟨v0, v1, v2, vi1, vi2, vo1, vo2, ve1, ve2⟩, hframe⟩ :=
      childBranch_noRedir_table a w p.table hwf hc hro
    obtain ⟨-, -, -, -, -, -, -, ho1, ho2, he1, he2⟩ := hwf
    refine ⟨?_, ?_, ?_, ?_, ?_⟩
    · rw [htab, vo1, ho1]
    · rw [htab, vo2, ho2]
    · rw [htab, ve1, he1]
    · rw [htab, ve2, he2]
    · intro hex
      simp [SPM_fork_exec_chdir, hf, hco, hc, hex]

/-- Witness for C10 in the merge configuration. -/
theorem C10_witness :
    worldOk.forkPid = some 42 ∧ pipesWF argsMerge parent0.table ∧
    worldOk.chdirOk = true ∧
    ((SPM_fork_exec_chdir argsMerge worldOk parent0).childTable argsMerge.errPipe.1 =
        parent0.table argsMerge.errPipe.1 ∧
      (SPM_fork_exec_chdir argsMerge worldOk parent0).childTable argsMerge.errPipe.2 =
        parent0.table argsMerge.errPipe.2 ∧
      (SPM_fork_exec_chdir argsMerge worldOk parent0).childOutcome =
        some (ChildOutcome.execed argsMerge.cmd)) :=
  ⟨rfl, by decide, rfl, by
    have h := (C10_unrewired_ends_stay_open argsMerge worldOk parent0 42 rfl
      (by decide) rfl).1 rfl rfl
    exact ⟨h.1, h.2.1, h.2.2.2.2 rfl⟩⟩

end TSCclibc
